import Mathlib

/-!
Shallow embedding of the authentication module `auth.py` of the
failurePrediction_backend repository, together with theorems checking the
natural-language specification against it.

Modelling conventions:
- The MongoDB collections `users` and `manufacturers` are modelled as lists of
  documents; `find_one` on a field is `List.find?` on that field, and
  `insert_one` appends to the list (MongoDB natural order).
- Fields that the code reads with a `.get(key, default)` fallback are modelled
  as `Option` fields on the document; fields the code indexes directly are
  plain fields.
- The external passlib `CryptContext` and python-jose JWT library are external
  collaborators and are modelled from the spec contracts (see the doc comments
  on `get_password_hash`, `verify_password`, `jwt_decode`).
- Raising `HTTPException` is modelled by returning `AuthResponse.error`;
  returning Python `False` from the authenticate functions is
  `AuthResult.failed`; an uncaught `KeyError` is `AuthResult.keyError`.
- Time is an abstract `Nat` timestamp in seconds, threaded explicitly.
-/

/-- Process-wide signing secret from `config` (external configuration,
treated as an immutable opaque string). -/
def SECRET_KEY : String := "process-secret-key"

/-- Process-wide signing algorithm identifier from `config`. -/
def ALGORITHM : String := "HS256"

/-- Default super admin username (auth.py line 26). -/
def SUPER_ADMIN_USERNAME : String := "admin"

/-- Modelled from the spec: the password hasher (external passlib
`CryptContext`, bcrypt with pbkdf2_sha256 fallback) is a one-way hash whose
verification succeeds exactly on the hashed password; salting and the
negligible collision probability are abstracted away, so the model hash is a
deterministic injective digest. -/
def get_password_hash (password : String) : String :=
  "$pbkdf2-sha256$" ++ password

/-- Modelled from the spec: `pwd_context.verify` checks the plain password
against the stored digest (auth.py lines 72-74 delegate to passlib). -/
def verify_password (plain_password hashed_password : String) : Bool :=
  get_password_hash plain_password == hashed_password

/-- A document of the `users` collection. Every writer of this collection
(the super-admin bootstrap) stores all six fields, so they are plain. -/
structure UserDoc where
  username : String
  email : String
  hashed_password : String
  is_active : Bool
  role : String
  created_at : String
deriving DecidableEq, Repr

/-- A document of the `manufacturers` collection. The code reads `is_active`
and `role` with `.get(key, default)`, so they are optional here. -/
structure ManufacturerDoc where
  username : String
  email : String
  hashed_password : String
  company_name : String
  is_active : Option Bool
  role : Option String
  created_at : String
deriving DecidableEq, Repr

/-- The two collections of the credential store (module globals
`users_collection` and `manufacturers_collection`). -/
structure Store where
  users : List UserDoc
  manufacturers : List ManufacturerDoc
deriving DecidableEq, Repr

/-- The in-memory `UserDB` class (auth.py lines 45-52): the principal view
returned by the authenticate and resolution functions. -/
structure UserDB where
  username : String
  email : String
  hashed_password : String
  is_active : Bool
  role : String
deriving DecidableEq, Repr

/-- The dictionary built by `get_manufacturer` (auth.py lines 92-98):
username, email, company_name, is_active (defaulted to true) and the fixed
role string; note it carries NO hashed_password entry. -/
structure ManufacturerView where
  username : String
  email : String
  company_name : String
  is_active : Bool
  role : String
deriving DecidableEq, Repr

/-- `get_user` (auth.py lines 80-86): find_one by username in the users
collection and build a `UserDB` from the document. -/
def get_user (s : Store) (username : String) : Option UserDB :=
  match s.users.find? (fun d => d.username == username) with
  | some d => some ⟨d.username, d.email, d.hashed_password, d.is_active, d.role⟩
  | none => none

/-- `get_manufacturer` (auth.py lines 88-99): find_one by username in the
manufacturers collection; the returned dict omits the stored hashed_password,
defaults is_active to true and fixes role to "manufacturer". -/
def get_manufacturer (s : Store) (username : String) : Option ManufacturerView :=
  match s.manufacturers.find? (fun d => d.username == username) with
  | some d => some ⟨d.username, d.email, d.company_name, d.is_active.getD true, "manufacturer"⟩
  | none => none

/-- Outcome of the authenticate functions: a principal, Python `False`, or an
uncaught `KeyError`. -/
inductive AuthResult where
  | principal (u : UserDB)
  | failed
  | keyError
deriving DecidableEq, Repr

/-- `authenticate_user` (auth.py lines 101-128). In the manufacturer branch
the dict returned by `get_manufacturer` has no "hashed_password" key, so
`manufacturer.get("hashed_password", "")` is `""` and, were verification
against `""` ever to succeed, `manufacturer["hashed_password"]` on line 121
would raise `KeyError`. -/
def authenticate_user (s : Store) (username password : String) : AuthResult :=
  match get_user s username with
  | none =>
    match get_manufacturer s username with
    | some _ =>
      if verify_password password "" then AuthResult.keyError
      else AuthResult.failed
    | none => AuthResult.failed
  | some user =>
    if verify_password password user.hashed_password then AuthResult.principal user
    else AuthResult.failed

/-- A JWT payload restricted to the claims the module reads: `sub`, `role`
and the absolute expiry timestamp `exp` (seconds). -/
structure Payload where
  sub : Option String
  role : Option String
  exp : Option Nat
deriving DecidableEq, Repr

/-- A structurally-modelled signed token: the encoded payload plus the key
and algorithm it was signed with. -/
structure Token where
  payload : Payload
  key : String
  alg : String
deriving DecidableEq, Repr

/-- `create_access_token` (auth.py lines 130-139): copy the claims, set
`exp` to now + expires_delta (Python truthiness: a zero timedelta falls back
to the default) or now + 15 minutes, and sign with SECRET_KEY/ALGORITHM. -/
def create_access_token (now : Nat) (data : Payload) (expires_delta : Option Nat) : Token :=
  let expire : Nat :=
    match expires_delta with
    | some d => if d == 0 then now + 15 * 60 else now + d
    | none => now + 15 * 60
  { payload := { data with exp := some expire }, key := SECRET_KEY, alg := ALGORITHM }

/-- Modelled from the spec: `jwt.decode` (external python-jose) verifies the
signature (key and algorithm match) and the `exp` claim (expired when the
timestamp is strictly in the past), returning the claims on success and
raising JWTError — here `none` — otherwise. `none` as input stands for a
malformed token string. -/
def jwt_decode (tok : Option Token) (key alg : String) (now : Nat) : Option Payload :=
  match tok with
  | none => none
  | some t =>
    if t.key == key && t.alg == alg &&
        (match t.payload.exp with
         | some e => decide (now ≤ e)
         | none => true) then
      some t.payload
    else none

/-- An `HTTPException` as raised by the module: status code and detail. -/
structure HTTPError where
  status_code : Nat
  detail : String
deriving DecidableEq, Repr

/-- The 401 `credentials_exception` (auth.py lines 154-158). -/
def credentials_exception : HTTPError :=
  ⟨401, "Could not validate credentials"⟩

/-- The 403 exception raised by `get_super_admin_user` (auth.py lines 193-196). -/
def forbidden_exception : HTTPError :=
  ⟨403, "Only super admins can access this endpoint"⟩

/-- Outcome of a guarded endpoint dependency: a principal or a raised
`HTTPException`. -/
inductive AuthResponse where
  | ok (u : UserDB)
  | error (e : HTTPError)
deriving DecidableEq, Repr

/-- The user-then-manufacturer lookup of `get_current_user` (auth.py lines
170-183): try the users collection, else build a `UserDB` from the
`get_manufacturer` view — whose dict has no "hashed_password" key, so the
`.get("hashed_password", "")` fallback yields `""`. -/
def resolve_principal (s : Store) (username : String) : Option UserDB :=
  match get_user s username with
  | some u => some u
  | none =>
    match get_manufacturer s username with
    | some m => some ⟨m.username, m.email, "", m.is_active, m.role⟩
    | none => none

/-- `get_current_user` (auth.py lines 143-189): decode the token (JWTError
becomes the 401), require the `sub` claim, default the `role` claim to
"user", resolve the principal from either store, reject a missing or
inactive principal with the 401, and finally overwrite the principal's role
with the token's role claim. -/
def get_current_user (s : Store) (tok : Option Token) (now : Nat) : AuthResponse :=
  match jwt_decode tok SECRET_KEY ALGORITHM now with
  | none => AuthResponse.error credentials_exception
  | some payload =>
    match payload.sub with
    | none => AuthResponse.error credentials_exception
    | some username =>
      let role := payload.role.getD "user"
      match resolve_principal s username with
      | none => AuthResponse.error credentials_exception
      | some user =>
        if user.is_active then AuthResponse.ok { user with role := role }
        else AuthResponse.error credentials_exception

/-- `get_super_admin_user` (auth.py lines 190-197): 403 unless the current
user's role is "super_admin". -/
def get_super_admin_user (current_user : UserDB) : AuthResponse :=
  if current_user.role != "super_admin" then AuthResponse.error forbidden_exception
  else AuthResponse.ok current_user

/-- `create_manufacturer_user` (auth.py lines 199-223): reject a duplicate
username, then a duplicate email, else hash the password and insert the new
document. The generated Mongo ObjectId string is an external input `newId`;
`nowStr` is `datetime.now().isoformat()`. -/
def create_manufacturer_user (s : Store) (nowStr newId : String)
    (username email password company_name : String) : (Bool × String) × Store :=
  match s.manufacturers.find? (fun d => d.username == username) with
  | some _ => ((false, "Username already exists"), s)
  | none =>
    match s.manufacturers.find? (fun d => d.email == email) with
    | some _ => ((false, "Email already registered"), s)
    | none =>
      ((true, newId),
       { s with manufacturers := s.manufacturers ++
          [⟨username, email, get_password_hash password, company_name,
            some true, some "manufacturer", nowStr⟩] })

/-- `authenticate_manufacturer` (auth.py lines 225-241): manufacturer-only
check against the raw document, with the `.get` defaults for is_active and
role on the returned view. -/
def authenticate_manufacturer (s : Store) (username password : String) : AuthResult :=
  match s.manufacturers.find? (fun d => d.username == username) with
  | none => AuthResult.failed
  | some m =>
    if verify_password password m.hashed_password then
      AuthResult.principal
        ⟨m.username, m.email, m.hashed_password, m.is_active.getD true, m.role.getD "manufacturer"⟩
    else AuthResult.failed

/-- The document inserted by the super-admin bootstrap (auth.py lines 34-41);
`nowStr` is `datetime.now().isoformat()`. -/
def superAdminDoc (nowStr : String) : UserDoc :=
  ⟨SUPER_ADMIN_USERNAME, "admin@hospital-device-risk.com",
   get_password_hash "admin123", true, "super_admin", nowStr⟩

/-- `init_super_admin` (auth.py lines 29-42): insert the default super admin
document unless a user with that username already exists. -/
def init_super_admin (nowStr : String) (s : Store) : Store :=
  match s.users.find? (fun d => d.username == SUPER_ADMIN_USERNAME) with
  | some _ => s
  | none => { s with users := s.users ++ [superAdminDoc nowStr] }

/-! ### Helper lemmas -/

theorem get_password_hash_ne_empty (pw : String) : get_password_hash pw ≠ "" := by
  intro h
  have hl := congrArg String.length h
  simp only [get_password_hash, String.length_append] at hl
  have h15 : ("$pbkdf2-sha256$" : String).length = 15 := by decide
  have h0 : ("" : String).length = 0 := by decide
  omega

theorem verify_password_empty_hash (pw : String) : verify_password pw "" = false := by
  simp only [verify_password, beq_eq_false_iff_ne, ne_eq]
  exact get_password_hash_ne_empty pw

theorem string_append_left_cancel {a b c : String} (h : a ++ b = a ++ c) : b = c := by
  have hd := congrArg String.data h
  simp only [String.data_append] at hd
  exact String.ext (List.append_cancel_left hd)

/-! ### Claim theorems -/

/-- C9: for every password p, verify_password p (get_password_hash p) is
true, and for distinct p1, p2, verify_password p1 (get_password_hash p2) is
false (collisions are absent in the modelled hasher). -/
theorem verify_of_hash_true_and_distinct_false (p p1 p2 : String) (h : p1 ≠ p2) :
    verify_password p (get_password_hash p) = true ∧
    verify_password p1 (get_password_hash p2) = false := by
  constructor
  · simp [verify_password]
  · simp only [verify_password, beq_eq_false_iff_ne, ne_eq, get_password_hash]
    intro hc
    exact h (string_append_left_cancel hc)

/-- Witness for C9 at p = p1 = "alpha", p2 = "beta". -/
theorem verify_of_hash_witness :
    verify_password "alpha" (get_password_hash "alpha") = true ∧
    verify_password "alpha" (get_password_hash "beta") = false :=
  verify_of_hash_true_and_distinct_false "alpha" "alpha" "beta" (by decide)

/-- C1 (code bug): for a username present only in the manufacturer store,
authenticate_user fails for EVERY password — including the one matching the
stored hash — because get_manufacturer strips hashed_password and the code
verifies against "". Here the stored hash is get_password_hash "pw1", yet
authenticate_user with password "pw1" (or any other) returns failed. -/
theorem authenticate_user_manufacturer_fallback_never_succeeds (pw : String) :
    authenticate_user
      ⟨[], [⟨"m1", "m1@acme.com", get_password_hash "pw1", "Acme",
             some true, some "manufacturer", "2024-01-01"⟩]⟩
      "m1" pw = AuthResult.failed := by
  show (if verify_password pw "" then AuthResult.keyError else AuthResult.failed)
        = AuthResult.failed
  rw [verify_password_empty_hash]
  simp

/-- C2 counterexample: an inactive stored principal with the correct password
IS returned by authenticate_user (user store) and by
authenticate_manufacturer — both functions ignore is_active — refuting the
claim that authentication never yields an inactive principal. -/
theorem authenticate_returns_inactive_principal :
    authenticate_user
      ⟨[⟨"u1", "u1@x.com", get_password_hash "pw1", false, "user", "t0"⟩], []⟩
      "u1" "pw1"
      = AuthResult.principal ⟨"u1", "u1@x.com", get_password_hash "pw1", false, "user"⟩
    ∧ authenticate_manufacturer
      ⟨[], [⟨"m1", "m1@x.com", get_password_hash "pw2", "Acme",
             some false, some "manufacturer", "t0"⟩]⟩
      "m1" "pw2"
      = AuthResult.principal ⟨"m1", "m1@x.com", get_password_hash "pw2", false, "manufacturer"⟩ := by
  constructor <;> rfl

/-- C2 amended: is_active gates only token resolution — get_current_user
rejects a validly signed, unexpired token whose resolved principal is
inactive with the invalid-credentials failure — while authenticate_user and
authenticate_manufacturer perform no is_active check and return even an
inactive principal whenever the password verifies. -/
theorem inactive_principal_never_resolves
    (s : Store) (t : Token) (now : Nat) (u : String) (p : UserDB)
    (hdec : jwt_decode (some t) SECRET_KEY ALGORITHM now = some t.payload)
    (hsub : t.payload.sub = some u)
    (hres : resolve_principal s u = some p)
    (hin : p.is_active = false) :
    get_current_user s (some t) now = AuthResponse.error credentials_exception
    ∧ (∀ (s2 : Store) (d : UserDoc) (pw : String),
        s2.users.find? (fun x => x.username == d.username) = some d →
        verify_password pw d.hashed_password = true →
        authenticate_user s2 d.username pw
          = AuthResult.principal ⟨d.username, d.email, d.hashed_password, d.is_active, d.role⟩)
    ∧ (∀ (s2 : Store) (d : ManufacturerDoc) (pw : String),
        s2.manufacturers.find? (fun x => x.username == d.username) = some d →
        verify_password pw d.hashed_password = true →
        authenticate_manufacturer s2 d.username pw
          = AuthResult.principal
              ⟨d.username, d.email, d.hashed_password, d.is_active.getD true, d.role.getD "manufacturer"⟩) := by
  refine ⟨?_, ?_, ?_⟩
  · simp [get_current_user, hdec, hsub, hres, hin]
  · intro s2 d pw hfind hver
    simp [authenticate_user, get_user, hfind, hver]
  · intro s2 d pw hfind hver
    simp [authenticate_manufacturer, hfind, hver]

/-- Witness for C2 amended: a concrete inactive user, a validly signed and
unexpired token for them, rejected with the 401. -/
theorem inactive_principal_never_resolves_witness :
    get_current_user
      ⟨[⟨"u2", "u2@x.com", get_password_hash "q", false, "user", "t0"⟩], []⟩
      (some ⟨⟨some "u2", some "user", some 100⟩, SECRET_KEY, ALGORITHM⟩) 0
      = AuthResponse.error credentials_exception :=
  (inactive_principal_never_resolves
    ⟨[⟨"u2", "u2@x.com", get_password_hash "q", false, "user", "t0"⟩], []⟩
    ⟨⟨some "u2", some "user", some 100⟩, SECRET_KEY, ALGORITHM⟩ 0 "u2"
    ⟨"u2", "u2@x.com", get_password_hash "q", false, "user"⟩
    rfl rfl rfl rfl).1

/-- C6: a token minted by create_access_token with subject S, role R and no
expiry argument, decoded immediately with the process key and algorithm,
yields exactly the claims sub = S and role = R, passes the expiry check (is
not expired), and its embedded absolute expiration timestamp is issuance
plus 15 minutes (any exp entry in the input data being overwritten). -/
theorem create_access_token_roundtrip (S R : String) (e0 : Option Nat) (now : Nat) :
    jwt_decode (some (create_access_token now ⟨some S, some R, e0⟩ none))
        SECRET_KEY ALGORITHM now
      = some ⟨some S, some R, some (now + 15 * 60)⟩
    ∧ (create_access_token now ⟨some S, some R, e0⟩ none).payload.exp
      = some (now + 15 * 60) := by
  constructor
  · unfold jwt_decode create_access_token
    simp [Nat.le_add_right]
  · rfl

/-- C7: get_super_admin_user rejects exactly the principals whose role is
not "super_admin", with the Forbidden signal — an HTTP 403, distinct from
the invalid-credentials 401 — and passes any super_admin principal through
unchanged. -/
theorem super_admin_guard_characterisation (p : UserDB) :
    (get_super_admin_user p = AuthResponse.error forbidden_exception ↔ p.role ≠ "super_admin")
    ∧ (p.role = "super_admin" → get_super_admin_user p = AuthResponse.ok p)
    ∧ forbidden_exception ≠ credentials_exception := by
  refine ⟨?_, ?_, by decide⟩
  · unfold get_super_admin_user
    by_cases h : p.role = "super_admin" <;> simp [h]
  · intro h
    unfold get_super_admin_user
    simp [h]

/-- Witness for C7: the guard passes a super_admin principal and rejects a
plain user with the 403. -/
theorem super_admin_guard_witness :
    get_super_admin_user ⟨"admin", "a@x.com", "h", true, "super_admin"⟩
      = AuthResponse.ok ⟨"admin", "a@x.com", "h", true, "super_admin"⟩
    ∧ get_super_admin_user ⟨"bob", "b@x.com", "h", true, "user"⟩
      = AuthResponse.error forbidden_exception :=
  ⟨(super_admin_guard_characterisation ⟨"admin", "a@x.com", "h", true, "super_admin"⟩).2.1 rfl,
   (super_admin_guard_characterisation ⟨"bob", "b@x.com", "h", true, "user"⟩).1.mpr (by decide)⟩

/-- C4: whenever a token decodes successfully and carries role claim R, any
principal returned by get_current_user has role exactly R — the token's role
claim overwrites whatever role the store record holds. -/
theorem role_taken_from_token_claim
    (s : Store) (tok : Option Token) (now : Nat) (pl : Payload) (R : String) (u : UserDB)
    (hdec : jwt_decode tok SECRET_KEY ALGORITHM now = some pl)
    (hrole : pl.role = some R)
    (hok : get_current_user s tok now = AuthResponse.ok u) :
    u.role = R := by
  simp only [get_current_user, hdec] at hok
  cases hsub : pl.sub with
  | none => simp [hsub] at hok
  | some un =>
    simp only [hsub] at hok
    cases hres : resolve_principal s un with
    | none => simp [hres] at hok
    | some q =>
      simp only [hres] at hok
      by_cases hact : q.is_active = true
      · simp only [hact, if_true, AuthResponse.ok.injEq] at hok
        subst hok
        simp [hrole]
      · simp [hact] at hok

/-- Witness for C4: the store record has role "user" but the token role claim
"x_role" wins in the returned principal. -/
theorem role_taken_from_token_claim_witness :
    (⟨"u1", "u1@x.com", "h", true, "x_role"⟩ : UserDB).role = "x_role" :=
  role_taken_from_token_claim
    ⟨[⟨"u1", "u1@x.com", "h", true, "user", "t"⟩], []⟩
    (some ⟨⟨some "u1", some "x_role", some 100⟩, SECRET_KEY, ALGORITHM⟩) 0
    ⟨some "u1", some "x_role", some 100⟩ "x_role"
    ⟨"u1", "u1@x.com", "h", true, "x_role"⟩
    rfl rfl rfl

/-- C10: a valid, unexpired token with a sub claim but no role claim is not
rejected: the role defaults to "user" and an active resolved principal is
returned carrying role "user". -/
theorem missing_role_claim_defaults_to_user
    (s : Store) (t : Token) (now : Nat) (u : String) (p : UserDB)
    (hdec : jwt_decode (some t) SECRET_KEY ALGORITHM now = some t.payload)
    (hsub : t.payload.sub = some u)
    (hnorole : t.payload.role = none)
    (hres : resolve_principal s u = some p)
    (hact : p.is_active = true) :
    get_current_user s (some t) now = AuthResponse.ok { p with role := "user" } := by
  simp [get_current_user, hdec, hsub, hnorole, hres, hact]

/-- Witness for C10: a manufacturer-backed principal resolved from a token
with no role claim comes back active with role "user". -/
theorem missing_role_claim_defaults_to_user_witness :
    get_current_user ⟨[], [⟨"m2", "m2@x.com", "h", "Acme", some true, none, "t"⟩]⟩
      (some ⟨⟨some "m2", none, some 50⟩, SECRET_KEY, ALGORITHM⟩) 3
      = AuthResponse.ok ⟨"m2", "m2@x.com", "", true, "user"⟩ :=
  missing_role_claim_defaults_to_user
    ⟨[], [⟨"m2", "m2@x.com", "h", "Acme", some true, none, "t"⟩]⟩
    ⟨⟨some "m2", none, some 50⟩, SECRET_KEY, ALGORITHM⟩ 3 "m2"
    ⟨"m2", "m2@x.com", "", true, "manufacturer"⟩
    rfl rfl rfl rfl rfl

/-- C5: create_manufacturer_user rejects a duplicate username first, then a
duplicate email, inserting nothing on either failure, and otherwise inserts
the hashed record and returns true with the (non-empty) generated id. -/
theorem create_manufacturer_user_characterisation
    (s : Store) (nowStr newId un em pw cn : String) (hid : newId ≠ "") :
    ((s.manufacturers.find? (fun d => d.username == un)).isSome = true →
        create_manufacturer_user s nowStr newId un em pw cn
          = ((false, "Username already exists"), s))
    ∧ (s.manufacturers.find? (fun d => d.username == un) = none →
        (s.manufacturers.find? (fun d => d.email == em)).isSome = true →
        create_manufacturer_user s nowStr newId un em pw cn
          = ((false, "Email already registered"), s))
    ∧ (s.manufacturers.find? (fun d => d.username == un) = none →
        s.manufacturers.find? (fun d => d.email == em) = none →
        create_manufacturer_user s nowStr newId un em pw cn
          = ((true, newId),
             { s with manufacturers := s.manufacturers ++
                 [⟨un, em, get_password_hash pw, cn, some true, some "manufacturer", nowStr⟩] })
        ∧ (create_manufacturer_user s nowStr newId un em pw cn).1.2 ≠ "") := by
  refine ⟨?_, ?_, ?_⟩
  · intro h
    obtain ⟨d, hd⟩ := Option.isSome_iff_exists.mp h
    simp [create_manufacturer_user, hd]
  · intro h1 h2
    obtain ⟨d, hd⟩ := Option.isSome_iff_exists.mp h2
    simp [create_manufacturer_user, h1, hd]
  · intro h1 h2
    have heq : create_manufacturer_user s nowStr newId un em pw cn
        = ((true, newId),
           { s with manufacturers := s.manufacturers ++
               [⟨un, em, get_password_hash pw, cn, some true, some "manufacturer", nowStr⟩] }) := by
      simp [create_manufacturer_user, h1, h2]
    exact ⟨heq, by rw [heq]; exact hid⟩

/-- Witness for C5: inserting a novel username and email into the empty store
succeeds with the externally generated non-empty id. -/
theorem create_manufacturer_user_witness :
    create_manufacturer_user ⟨[], []⟩ "t2" "id9" "m3" "m3@x.com" "pw" "Acme"
      = ((true, "id9"),
         ⟨[], [⟨"m3", "m3@x.com", get_password_hash "pw", "Acme",
                some true, some "manufacturer", "t2"⟩]⟩)
    ∧ (create_manufacturer_user ⟨[], []⟩ "t2" "id9" "m3" "m3@x.com" "pw" "Acme").1.2 ≠ "" :=
  (create_manufacturer_user_characterisation ⟨[], []⟩ "t2" "id9" "m3" "m3@x.com" "pw" "Acme"
    (by decide)).2.2 rfl rfl

/-- C8: the super-admin bootstrap is idempotent — a second run changes
nothing — it is the identity when a record with the admin username already
exists, it appends exactly the bootstrap document when absent, and from an
admin-free store any number of runs leaves exactly one admin record. -/
theorem init_super_admin_idempotent (s : Store) (t1 t2 : String) :
    init_super_admin t2 (init_super_admin t1 s) = init_super_admin t1 s
    ∧ ((s.users.find? (fun d => d.username == SUPER_ADMIN_USERNAME)).isSome = true →
        init_super_admin t1 s = s)
    ∧ (s.users.find? (fun d => d.username == SUPER_ADMIN_USERNAME) = none →
        (init_super_admin t1 s).users = s.users ++ [superAdminDoc t1])
    ∧ (s.users.countP (fun d => d.username == SUPER_ADMIN_USERNAME) = 0 →
        (init_super_admin t1 s).users.countP (fun d => d.username == SUPER_ADMIN_USERNAME) = 1) := by
  have hpred : (fun d => d.username == SUPER_ADMIN_USERNAME) (superAdminDoc t1) = true := by
    simp [superAdminDoc]
  cases hf : s.users.find? (fun d => d.username == SUPER_ADMIN_USERNAME) with
  | some d =>
    have h1 : init_super_admin t1 s = s := by simp [init_super_admin, hf]
    refine ⟨?_, fun _ => h1, ?_, ?_⟩
    · rw [h1]; simp [init_super_admin, hf]
    · intro hn; simp at hn
    · intro hc
      have hd := List.find?_some hf
      have hmem := List.mem_of_find?_eq_some hf
      rw [List.countP_eq_zero] at hc
      exact absurd hd (by simpa using hc d hmem)
  | none =>
    have h1 : init_super_admin t1 s = { s with users := s.users ++ [superAdminDoc t1] } := by
      simp [init_super_admin, hf]
    have hfind2 : ({ s with users := s.users ++ [superAdminDoc t1] } : Store).users.find?
        (fun d => d.username == SUPER_ADMIN_USERNAME) = some (superAdminDoc t1) := by
      simp [List.find?_append, hf, hpred]
    refine ⟨?_, ?_, ?_, ?_⟩
    · rw [h1]
      simp [init_super_admin, hfind2]
    · intro hs; simp at hs
    · intro _; rw [h1]
    · intro hc
      rw [h1]
      simp [List.countP_append, hc, hpred]

/-- Witness for C8: bootstrapping the empty store twice equals bootstrapping
it once, and leaves exactly one admin record. -/
theorem init_super_admin_idempotent_witness :
    init_super_admin "t2" (init_super_admin "t1" (⟨[], []⟩ : Store))
      = init_super_admin "t1" ⟨[], []⟩
    ∧ (init_super_admin "t1" (⟨[], []⟩ : Store)).users.countP
        (fun d => d.username == SUPER_ADMIN_USERNAME) = 1 :=
  ⟨(init_super_admin_idempotent ⟨[], []⟩ "t1" "t2").1,
   (init_super_admin_idempotent ⟨[], []⟩ "t1" "t2").2.2.2 rfl⟩

/-- Helper: get_current_user either raises the 401 credentials_exception or
returns a principal — no other outcome exists. -/
theorem get_current_user_total (s : Store) (tok : Option Token) (now : Nat) :
    get_current_user s tok now = AuthResponse.error credentials_exception
    ∨ ∃ u, get_current_user s tok now = AuthResponse.ok u := by
  unfold get_current_user
  split
  · exact Or.inl rfl
  · split
    · exact Or.inl rfl
    · split
      · exact Or.inl rfl
      · split
        · exact Or.inr ⟨_, rfl⟩
        · exact Or.inl rfl

/-- C3: get_current_user raises the unauthorized invalid-credentials error
exactly when the token is malformed, unsigned with the process key, or
expired (jwt_decode fails), or the sub claim is missing, or the username is
found in neither store, or the resolved principal is inactive; in every
other case it returns a principal (the 401 being the only error raised). -/
theorem get_current_user_error_characterisation (s : Store) (tok : Option Token) (now : Nat) :
    (get_current_user s tok now = AuthResponse.error credentials_exception ↔
      jwt_decode tok SECRET_KEY ALGORITHM now = none
      ∨ ∃ pl, jwt_decode tok SECRET_KEY ALGORITHM now = some pl ∧
          (pl.sub = none
           ∨ ∃ un, pl.sub = some un ∧
               ((get_user s un = none ∧ get_manufacturer s un = none)
                ∨ (∃ q, get_user s un = some q ∧ q.is_active = false)
                ∨ (get_user s un = none ∧
                   ∃ m, get_manufacturer s un = some m ∧ m.is_active = false))))
    ∧ (get_current_user s tok now = AuthResponse.error credentials_exception
       ∨ ∃ u, get_current_user s tok now = AuthResponse.ok u) := by
  refine ⟨?_, get_current_user_total s tok now⟩
  cases hdec : jwt_decode tok SECRET_KEY ALGORITHM now with
  | none =>
    simp [get_current_user, hdec]
  | some pl =>
    simp only [get_current_user, hdec]
    cases hsub : pl.sub with
    | none => simp [hsub]
    | some un =>
      simp only [hsub]
      cases hgu : get_user s un with
      | some q =>
        have hres : resolve_principal s un = some q := by
          simp [resolve_principal, hgu]
        simp only [hres]
        cases hact : q.is_active with
        | true => simp [hact, hsub, hgu]
        | false => simp [hact, hsub, hgu]
      | none =>
        cases hgm : get_manufacturer s un with
        | none =>
          have hres : resolve_principal s un = none := by
            simp [resolve_principal, hgu, hgm]
          simp [hres, hsub, hgu, hgm]
        | some m =>
          have hres : resolve_principal s un
              = some ⟨m.username, m.email, "", m.is_active, m.role⟩ := by
            simp [resolve_principal, hgu, hgm]
          simp only [hres]
          cases hact : m.is_active with
          | true => simp [hact, hsub, hgu, hgm]
          | false => simp [hact, hsub, hgu, hgm]
